import Mathlib

/-!
Verification of the amortization simulation of the SpendSense repository.

The function under study is `calculatePayoff` in
`src/ui-react/src/components/recommendations/RecommendationContent.tsx`,
the in-repo implementation of the What-If engine component that the
specification calls AmortizationSimulator.  JavaScript numbers are
modelled as exact rationals; `Math.round` is modelled by Mathlib `round`,
which agrees with JavaScript `Math.round` on every input (both compute
`⌊x + 1/2⌋`).
-/

namespace SpendSense

/-- Cent rounding as performed in the source when the result record is
built: `Math.round(x * 100) / 100`. -/
def round2 (x : ℚ) : ℚ := ((round (x * 100) : ℤ) : ℚ) / 100

/-- The mutable locals of the `while` loop of `calculatePayoff`:
`currentBalance`, `totalInterest` and `months`. -/
structure LoopState where
  currentBalance : ℚ
  totalInterest : ℚ
  months : ℕ
deriving DecidableEq, Repr

/-- One iteration of the `while` body of `calculatePayoff`:
`interestCharge = currentBalance * monthlyRate` is accumulated into
`totalInterest`, the balance is updated to
`currentBalance + interestCharge - monthlyPayment`, `months` is
incremented, and a negative balance is clipped to `0`
(`if (currentBalance < 0) currentBalance = 0`). -/
def payoffStep (monthlyRate monthlyPayment : ℚ) (s : LoopState) : LoopState :=
  let interestCharge := s.currentBalance * monthlyRate
  let nb := s.currentBalance + interestCharge - monthlyPayment
  { currentBalance := if nb < 0 then 0 else nb
    totalInterest := s.totalInterest + interestCharge
    months := s.months + 1 }

/-- The loop `while (currentBalance > 0 && months < 600)` of
`calculatePayoff`, written as structural recursion on a fuel argument.
Since `months` grows by one per iteration and the guard requires
`months < 600`, every fuel of at least `600 - months` computes the exact
result of the unbounded while loop; this is proved below
(`payoffLoop_stable`). -/
def payoffLoop (monthlyRate monthlyPayment : ℚ) : ℕ → LoopState → LoopState
  | 0, s => s
  | fuel + 1, s =>
    if 0 < s.currentBalance ∧ s.months < 600 then
      payoffLoop monthlyRate monthlyPayment fuel (payoffStep monthlyRate monthlyPayment s)
    else s

/-- The loop state reached by `calculatePayoff` on the given inputs,
starting from `currentBalance = balance`, `totalInterest = 0`,
`months = 0`, with `monthlyRate = apr / 100 / 12`. -/
def payoffRun (balance apr monthlyPayment : ℚ) : LoopState :=
  payoffLoop (apr / 100 / 12) monthlyPayment 600 ⟨balance, 0, 0⟩

/-- The record passed to `setResults` by `calculatePayoff`: it has
exactly the three fields `monthsToPayoff`, `totalInterest` and
`totalPaid`. -/
structure PayoffResult where
  monthsToPayoff : ℕ
  totalInterest : ℚ
  totalPaid : ℚ
deriving DecidableEq, Repr

/-- `calculatePayoff` from `RecommendationContent.tsx`: runs the monthly
loop and reports `months`, `Math.round(totalInterest * 100) / 100` and
`Math.round((balance + totalInterest) * 100) / 100`. -/
def calculatePayoff (balance apr monthlyPayment : ℚ) : PayoffResult :=
  let s := payoffRun balance apr monthlyPayment
  { monthsToPayoff := s.months
    totalInterest := round2 s.totalInterest
    totalPaid := round2 (balance + s.totalInterest) }

/-- The result contract of the AmortizationSimulator in the
specification, including the `capped` flag. -/
structure SimResult where
  monthsToPayoff : ℕ
  totalInterest : ℚ
  totalPaid : ℚ
  capped : Bool
deriving DecidableEq, Repr

/-- Modelled from the spec: the month-by-month recurrence of §4.1
(AmortizationSimulator), which is absent as a named component from the
repository sources; only `calculatePayoff` implements it.  Iterate
`interest = balance * monthly_rate; balance = balance + interest -
monthly_payment` (the balance clipped to `0` from below), accumulate
`total_interest`, and stop when `balance ≤ 0` or when the month index
reaches `max_months` (encoded here as the remaining-months fuel).
Returns (final balance, total interest, months executed). -/
def simulateLoop (monthlyRate monthlyPayment : ℚ) : ℕ → ℚ → ℚ → ℕ → ℚ × ℚ × ℕ
  | 0, bal, tI, m => (bal, tI, m)
  | remaining + 1, bal, tI, m =>
    if bal ≤ 0 then (bal, tI, m)
    else
      let interest := bal * monthlyRate
      simulateLoop monthlyRate monthlyPayment remaining
        (max (bal + interest - monthlyPayment) 0) (tI + interest) (m + 1)

/-- Modelled from the spec: the contract
`simulate(balance, apr, monthly_payment, max_months) ->
\x7bmonths_to_payoff, total_interest, total_paid, capped\x7d` of §4.1.
`capped` is true exactly when the loop stopped by reaching `max_months`
without the balance having reached zero; money is rounded to cents only
when the final result is reported. -/
def simulate (balance apr monthlyPayment : ℚ) (maxMonths : ℕ) : SimResult :=
  let r := simulateLoop (apr / 100 / 12) monthlyPayment maxMonths balance 0 0
  { monthsToPayoff := r.2.2
    totalInterest := round2 r.2.1
    totalPaid := round2 (balance + r.2.1)
    capped := decide (r.2.2 = maxMonths ∧ 0 < r.1) }

/-! ### Basic lemmas about the loop body -/

lemma clip_eq_max (x : ℚ) : (if x < 0 then (0 : ℚ) else x) = max x 0 := by
  rcases lt_or_le x 0 with h | h
  · rw [if_pos h, max_eq_right h.le]
  · rw [if_neg (not_lt.mpr h), max_eq_left h]

@[simp] lemma payoffStep_months (r p : ℚ) (s : LoopState) :
    (payoffStep r p s).months = s.months + 1 := rfl

@[simp] lemma payoffStep_totalInterest (r p : ℚ) (s : LoopState) :
    (payoffStep r p s).totalInterest = s.totalInterest + s.currentBalance * r := rfl

lemma payoffStep_currentBalance (r p : ℚ) (s : LoopState) :
    (payoffStep r p s).currentBalance
      = max (s.currentBalance + s.currentBalance * r - p) 0 := by
  simp only [payoffStep]
  exact clip_eq_max _

lemma payoffStep_balance_nonneg (r p : ℚ) (s : LoopState) :
    0 ≤ (payoffStep r p s).currentBalance := by
  rw [payoffStep_currentBalance]
  exact le_max_right _ _

lemma payoffLoop_stop (r p : ℚ) (fuel : ℕ) (s : LoopState)
    (h : ¬(0 < s.currentBalance ∧ s.months < 600)) :
    payoffLoop r p fuel s = s := by
  cases fuel with
  | zero => rfl
  | succ fuel => rw [payoffLoop, if_neg h]

lemma payoffLoop_step (r p : ℚ) (fuel : ℕ) (s : LoopState) (hf : fuel ≠ 0)
    (hc : 0 < s.currentBalance ∧ s.months < 600) :
    payoffLoop r p fuel s = payoffLoop r p (fuel - 1) (payoffStep r p s) := by
  cases fuel with
  | zero => exact absurd rfl hf
  | succ fuel => rw [payoffLoop, if_pos hc, Nat.succ_sub_one]

/-! ### Run invariants -/

lemma payoffLoop_balance_nonneg (r p : ℚ) (fuel : ℕ) :
    ∀ s : LoopState, 0 ≤ s.currentBalance →
      0 ≤ (payoffLoop r p fuel s).currentBalance := by
  induction fuel with
  | zero => intro s hs; exact hs
  | succ fuel ih =>
    intro s hs
    by_cases hc : 0 < s.currentBalance ∧ s.months < 600
    · rw [payoffLoop, if_pos hc]
      exact ih _ (payoffStep_balance_nonneg r p s)
    · rw [payoffLoop, if_neg hc]
      exact hs

lemma le_payoffLoop_months (r p : ℚ) (fuel : ℕ) :
    ∀ s : LoopState, s.months ≤ (payoffLoop r p fuel s).months := by
  induction fuel with
  | zero => intro s; exact le_rfl
  | succ fuel ih =>
    intro s
    by_cases hc : 0 < s.currentBalance ∧ s.months < 600
    · rw [payoffLoop, if_pos hc]
      calc s.months ≤ s.months + 1 := Nat.le_succ _
        _ = (payoffStep r p s).months := (payoffStep_months r p s).symm
        _ ≤ _ := ih _
    · rw [payoffLoop, if_neg hc]

lemma payoffLoop_months_le (r p : ℚ) (fuel : ℕ) :
    ∀ s : LoopState, (payoffLoop r p fuel s).months ≤ max s.months 600 := by
  induction fuel with
  | zero => intro s; exact le_max_left _ _
  | succ fuel ih =>
    intro s
    by_cases hc : 0 < s.currentBalance ∧ s.months < 600
    · rw [payoffLoop, if_pos hc]
      have h1 := ih (payoffStep r p s)
      rw [payoffStep_months] at h1
      have h2 : s.months + 1 ≤ 600 := hc.2
      omega
    · rw [payoffLoop, if_neg hc]
      exact le_max_left _ _

lemma payoffLoop_totalInterest_mono (r p : ℚ) (hr : 0 ≤ r) (fuel : ℕ) :
    ∀ s : LoopState, s.totalInterest ≤ (payoffLoop r p fuel s).totalInterest := by
  induction fuel with
  | zero => intro s; exact le_rfl
  | succ fuel ih =>
    intro s
    by_cases hc : 0 < s.currentBalance ∧ s.months < 600
    · rw [payoffLoop, if_pos hc]
      calc s.totalInterest ≤ s.totalInterest + s.currentBalance * r := by
            have : 0 ≤ s.currentBalance * r := mul_nonneg hc.1.le hr
            linarith
        _ = (payoffStep r p s).totalInterest := (payoffStep_totalInterest r p s).symm
        _ ≤ _ := ih _
    · rw [payoffLoop, if_neg hc]

/-- Fuel irrelevance: any fuel of at least `600 - months` computes the
same final state, so the fuel-based loop is a faithful rendering of the
unbounded `while (currentBalance > 0 && months < 600)` loop. -/
lemma payoffLoop_stable (r p : ℚ) (fuel₁ : ℕ) :
    ∀ (fuel₂ : ℕ) (s : LoopState), 600 ≤ s.months + fuel₁ → 600 ≤ s.months + fuel₂ →
      payoffLoop r p fuel₁ s = payoffLoop r p fuel₂ s := by
  induction fuel₁ with
  | zero =>
    intro fuel₂ s h₁ h₂
    have hs : ¬(0 < s.currentBalance ∧ s.months < 600) := by
      rintro ⟨-, hlt⟩; omega
    rw [payoffLoop_stop r p 0 s hs, payoffLoop_stop r p fuel₂ s hs]
  | succ fuel₁ ih =>
    intro fuel₂ s h₁ h₂
    by_cases hc : 0 < s.currentBalance ∧ s.months < 600
    · cases fuel₂ with
      | zero => omega
      | succ fuel₂ =>
        rw [payoffLoop, if_pos hc, payoffLoop, if_pos hc]
        exact ih fuel₂ _ (by rw [payoffStep_months]; omega)
          (by rw [payoffStep_months]; omega)
    · rw [payoffLoop_stop r p _ s hc, payoffLoop_stop r p _ s hc]

/-! ### Payment monotonicity (coupled runs) -/

lemma payoffLoop_couple (r p₁ p₂ : ℚ) (hr : 0 ≤ r) (hp : p₁ ≤ p₂) (fuel : ℕ) :
    ∀ s₁ s₂ : LoopState,
      0 ≤ s₂.currentBalance → s₂.currentBalance ≤ s₁.currentBalance →
      s₂.totalInterest ≤ s₁.totalInterest → s₂.months = s₁.months →
      (payoffLoop r p₂ fuel s₂).months ≤ (payoffLoop r p₁ fuel s₁).months ∧
      (payoffLoop r p₂ fuel s₂).totalInterest
        ≤ (payoffLoop r p₁ fuel s₁).totalInterest := by
  induction fuel with
  | zero => intro s₁ s₂ h0 hb ht hm; exact ⟨hm.le, ht⟩
  | succ fuel ih =>
    intro s₁ s₂ h0 hb ht hm
    have hmul : s₂.currentBalance * r ≤ s₁.currentBalance * r :=
      mul_le_mul_of_nonneg_right hb hr
    by_cases hc₂ : 0 < s₂.currentBalance ∧ s₂.months < 600
    · have hc₁ : 0 < s₁.currentBalance ∧ s₁.months < 600 :=
        ⟨lt_of_lt_of_le hc₂.1 hb, hm ▸ hc₂.2⟩
      rw [payoffLoop, if_pos hc₂, payoffLoop, if_pos hc₁]
      refine ih _ _ (payoffStep_balance_nonneg r p₂ s₂) ?_ ?_ ?_
      · rw [payoffStep_currentBalance, payoffStep_currentBalance]
        exact max_le_max (by linarith) le_rfl
      · rw [payoffStep_totalInterest, payoffStep_totalInterest]
        linarith
      · rw [payoffStep_months, payoffStep_months, hm]
    · rw [payoffLoop_stop r p₂ _ s₂ hc₂]
      constructor
      · calc s₂.months = s₁.months := hm
          _ ≤ _ := le_payoffLoop_months r p₁ _ s₁
      · calc s₂.totalInterest ≤ s₁.totalInterest := ht
          _ ≤ _ := payoffLoop_totalInterest_mono r p₁ hr _ s₁

/-! ### Equivalence of the source loop with the specified recurrence -/

lemma payoffStep_mk (r p bal tI : ℚ) (m : ℕ) :
    payoffStep r p ⟨bal, tI, m⟩ = ⟨max (bal + bal * r - p) 0, tI + bal * r, m + 1⟩ := by
  simp only [payoffStep]
  rw [clip_eq_max]

lemma payoffLoop_eq_simulateLoop (r p : ℚ) (fuel : ℕ) :
    ∀ (bal tI : ℚ) (m : ℕ), m + fuel = 600 →
      payoffLoop r p fuel ⟨bal, tI, m⟩ =
        ⟨(simulateLoop r p fuel bal tI m).1,
         (simulateLoop r p fuel bal tI m).2.1,
         (simulateLoop r p fuel bal tI m).2.2⟩ := by
  induction fuel with
  | zero => intro bal tI m h; rfl
  | succ fuel ih =>
    intro bal tI m h
    by_cases hb : 0 < bal
    · have hc : 0 < (⟨bal, tI, m⟩ : LoopState).currentBalance ∧
          (⟨bal, tI, m⟩ : LoopState).months < 600 := ⟨hb, (by omega : m < 600)⟩
      rw [payoffLoop, if_pos hc, payoffStep_mk]
      simp only [simulateLoop, if_neg (not_le.mpr hb)]
      exact ih _ _ _ (by omega)
    · have hc : ¬(0 < (⟨bal, tI, m⟩ : LoopState).currentBalance ∧
          (⟨bal, tI, m⟩ : LoopState).months < 600) := fun h2 => hb h2.1
      rw [payoffLoop_stop r p _ _ hc]
      simp only [simulateLoop, if_pos (not_lt.mp hb)]

/-- The run of `calculatePayoff` agrees with the specified simulation,
component by component; the specified `capped` flag has no counterpart
in the loop state. -/
lemma payoffRun_eq_simulateLoop (b a p : ℚ) :
    payoffRun b a p =
      ⟨(simulateLoop (a / 100 / 12) p 600 b 0 0).1,
       (simulateLoop (a / 100 / 12) p 600 b 0 0).2.1,
       (simulateLoop (a / 100 / 12) p 600 b 0 0).2.2⟩ :=
  payoffLoop_eq_simulateLoop (a / 100 / 12) p 600 b 0 0 rfl

lemma calculatePayoff_eq_simulate_parts (b a p : ℚ) :
    calculatePayoff b a p =
      { monthsToPayoff := (simulate b a p 600).monthsToPayoff
        totalInterest := (simulate b a p 600).totalInterest
        totalPaid := (simulate b a p 600).totalPaid } := by
  have h := payoffRun_eq_simulateLoop b a p
  simp only [calculatePayoff, simulate, h]

lemma simulate_capped_eq (b a p : ℚ) :
    (simulate b a p 600).capped
      = decide ((payoffRun b a p).months = 600 ∧ 0 < (payoffRun b a p).currentBalance) := by
  have h := payoffRun_eq_simulateLoop b a p
  simp only [simulate, h]

/-! ### Closed form at zero interest rate -/

lemma payoffLoop_rate_zero (p : ℚ) (hp : 0 < p) (fuel : ℕ) :
    ∀ (bal tI : ℚ) (m : ℕ),
      (payoffLoop 0 p fuel ⟨bal, tI, m⟩).totalInterest = tI ∧
      (payoffLoop 0 p fuel ⟨bal, tI, m⟩).months
        = m + min (Int.toNat ⌈bal / p⌉) (min fuel (600 - m)) ∧
      (0 < bal →
        (payoffLoop 0 p fuel ⟨bal, tI, m⟩).currentBalance
          = max (bal - (min (Int.toNat ⌈bal / p⌉) (min fuel (600 - m)) : ℕ) * p) 0) := by
  induction fuel with
  | zero =>
    intro bal tI m
    have hk0 : min (Int.toNat ⌈bal / p⌉) (min 0 (600 - m)) = 0 := by omega
    rw [hk0]
    refine ⟨rfl, rfl, fun hb => ?_⟩
    push_cast
    rw [zero_mul, sub_zero]
    exact (max_eq_left hb.le).symm
  | succ fuel ih =>
    intro bal tI m
    by_cases hb : 0 < bal
    · by_cases hm : m < 600
      · have hc : 0 < (⟨bal, tI, m⟩ : LoopState).currentBalance ∧
            (⟨bal, tI, m⟩ : LoopState).months < 600 := ⟨hb, hm⟩
        rw [payoffLoop, if_pos hc, payoffStep_mk]
        rw [mul_zero, add_zero, add_zero]
        by_cases hbp : bal ≤ p
        · have hceil : ⌈bal / p⌉ = 1 := by
            rw [Int.ceil_eq_iff]
            constructor
            · push_cast
              simpa using div_pos hb hp
            · push_cast
              exact (div_le_one hp).mpr hbp
          have hk1 : min (Int.toNat ⌈bal / p⌉) (min (fuel + 1) (600 - m)) = 1 := by
            rw [hceil]
            omega
          have hbal0 : max (bal - p) 0 = 0 := max_eq_right (by linarith)
          rw [hbal0]
          have hstop : payoffLoop 0 p fuel ⟨(0 : ℚ), tI, m + 1⟩ = ⟨0, tI, m + 1⟩ :=
            payoffLoop_stop 0 p fuel _ (fun h2 => lt_irrefl 0 h2.1)
          rw [hstop, hk1]
          refine ⟨rfl, rfl, fun _ => ?_⟩
          push_cast
          rw [one_mul]
          exact (max_eq_right (by linarith)).symm
        · have hpb : p < bal := not_le.mp hbp
          have hbal : max (bal - p) 0 = bal - p := max_eq_left (by linarith)
          have hceil : ⌈(bal - p) / p⌉ = ⌈bal / p⌉ - 1 := by
            rw [sub_div, div_self hp.ne', Int.ceil_sub_one]
          have hge2 : 2 ≤ ⌈bal / p⌉ := by
            have h1 : (1 : ℚ) < bal / p := (one_lt_div hp).mpr hpb
            have h2 := Int.lt_ceil.mpr (by exact_mod_cast h1 : ((1 : ℤ) : ℚ) < bal / p)
            omega
          rw [hbal]
          obtain ⟨ih1, ih2, ih3⟩ := ih (bal - p) tI (m + 1)
          refine ⟨ih1, ?_, fun _ => ?_⟩
          · rw [ih2, hceil]
            omega
          · rw [ih3 (by linarith), hceil]
            have hk1 : 1 ≤ min (Int.toNat ⌈bal / p⌉) (min (fuel + 1) (600 - m)) := by
              omega
            have hk : min (Int.toNat (⌈bal / p⌉ - 1)) (min fuel (600 - (m + 1)))
                = min (Int.toNat ⌈bal / p⌉) (min (fuel + 1) (600 - m)) - 1 := by
              omega
            rw [hk]
            congr 1
            rw [Nat.cast_sub hk1]
            push_cast
            ring
      · have hc : ¬(0 < (⟨bal, tI, m⟩ : LoopState).currentBalance ∧
            (⟨bal, tI, m⟩ : LoopState).months < 600) := fun h2 => hm h2.2
        rw [payoffLoop_stop 0 p _ _ hc]
        have hk0 : min (Int.toNat ⌈bal / p⌉) (min (fuel + 1) (600 - m)) = 0 := by
          omega
        rw [hk0]
        refine ⟨rfl, rfl, fun _ => ?_⟩
        push_cast
        rw [zero_mul, sub_zero]
        exact (max_eq_left hb.le).symm
    · have hc : ¬(0 < (⟨bal, tI, m⟩ : LoopState).currentBalance ∧
          (⟨bal, tI, m⟩ : LoopState).months < 600) := fun h2 => hb h2.1
      rw [payoffLoop_stop 0 p _ _ hc]
      have hceil : Int.toNat ⌈bal / p⌉ = 0 := by
        have h1 : bal / p ≤ 0 :=
          div_nonpos_iff.mpr (Or.inr ⟨not_lt.mp hb, hp.le⟩)
        have h2 : ⌈bal / p⌉ ≤ 0 := Int.ceil_le.mpr (by exact_mod_cast h1)
        omega
      refine ⟨rfl, by simp [hceil], fun hb2 => absurd hb2 hb⟩

/-! ### Rounding lemmas -/

lemma round2_intCast (n : ℤ) : round2 ((n : ℚ)) = (n : ℚ) := by
  unfold round2
  have h : ((n : ℚ) * 100) = ((n * 100 : ℤ) : ℚ) := by push_cast; ring
  rw [h, round_intCast]
  push_cast
  exact mul_div_cancel_right₀ _ (by norm_num)

lemma round2_zero : round2 0 = 0 := by
  have h := round2_intCast 0
  simpa using h

lemma round2_mono {x y : ℚ} (h : x ≤ y) : round2 x ≤ round2 y := by
  unfold round2
  have h1 : round (x * 100) ≤ round (y * 100) := by
    rw [round_eq, round_eq]
    exact Int.floor_mono (by linarith)
  have h2 : ((round (x * 100) : ℤ) : ℚ) ≤ ((round (y * 100) : ℤ) : ℚ) :=
    Int.cast_le.mpr h1
  linarith

/-! ### Evaluation of zero-rate runs -/

lemma calculatePayoff_rate_zero (b pp : ℚ) (hb : 0 < b) (hp : 0 < pp) :
    calculatePayoff b 0 pp =
      { monthsToPayoff := min (Int.toNat ⌈b / pp⌉) 600
        totalInterest := 0
        totalPaid := round2 b } := by
  have hrate : (0 : ℚ) / 100 / 12 = 0 := by norm_num
  obtain ⟨h1, h2, h3⟩ := payoffLoop_rate_zero pp hp 600 b 0 0
  simp only [calculatePayoff, payoffRun, hrate, h1, h2, round2_zero, add_zero,
    Nat.sub_zero, Nat.min_self, Nat.zero_add]

lemma payoffRun_rate_zero (b pp : ℚ) (hb : 0 < b) (hp : 0 < pp) :
    (payoffRun b 0 pp).months = min (Int.toNat ⌈b / pp⌉) 600 ∧
    (payoffRun b 0 pp).currentBalance
      = max (b - (min (Int.toNat ⌈b / pp⌉) 600 : ℕ) * pp) 0 := by
  have hrate : (0 : ℚ) / 100 / 12 = 0 := by norm_num
  obtain ⟨h1, h2, h3⟩ := payoffLoop_rate_zero pp hp 600 b 0 0
  constructor
  · simp only [payoffRun, hrate, h2, Nat.sub_zero, Nat.min_self, Nat.zero_add]
  · simp only [payoffRun, hrate, h3 hb, Nat.sub_zero, Nat.min_self]

/-! ### Concrete zero-rate evaluations -/

lemma ceil_600_1 : Int.toNat ⌈(600 : ℚ) / 1⌉ = 600 := by
  have h : ⌈(600 : ℚ) / 1⌉ = 600 := by
    rw [Int.ceil_eq_iff] <;> norm_num
  omega

lemma ceil_600_half : Int.toNat ⌈(600 : ℚ) / (1 / 2)⌉ = 1200 := by
  have h : ⌈(600 : ℚ) / (1 / 2)⌉ = 1200 := by
    rw [Int.ceil_eq_iff] <;> norm_num
  omega

lemma ceil_100_30 : Int.toNat ⌈(100 : ℚ) / 30⌉ = 4 := by
  have h : ⌈(100 : ℚ) / 30⌉ = 4 := by
    rw [Int.ceil_eq_iff] <;> norm_num
  omega

lemma ceil_10000_1 : Int.toNat ⌈(10000 : ℚ) / 1⌉ = 10000 := by
  have h : ⌈(10000 : ℚ) / 1⌉ = 10000 := by
    rw [Int.ceil_eq_iff] <;> norm_num
  omega

lemma calc_600_1 : calculatePayoff 600 0 1 = ⟨600, 0, 600⟩ := by
  rw [calculatePayoff_rate_zero 600 1 (by norm_num) (by norm_num), ceil_600_1]
  have h : round2 ((600 : ℤ) : ℚ) = ((600 : ℤ) : ℚ) := round2_intCast 600
  norm_num at h
  rw [h]
  norm_num [Nat.min_def]

lemma calc_600_half : calculatePayoff 600 0 (1 / 2) = ⟨600, 0, 600⟩ := by
  rw [calculatePayoff_rate_zero 600 (1 / 2) (by norm_num) (by norm_num), ceil_600_half]
  have h : round2 ((600 : ℤ) : ℚ) = ((600 : ℤ) : ℚ) := round2_intCast 600
  norm_num at h
  rw [h]
  norm_num [Nat.min_def]

lemma calc_100_30 : calculatePayoff 100 0 30 = ⟨4, 0, 100⟩ := by
  rw [calculatePayoff_rate_zero 100 30 (by norm_num) (by norm_num), ceil_100_30]
  have h : round2 ((100 : ℤ) : ℚ) = ((100 : ℤ) : ℚ) := round2_intCast 100
  norm_num at h
  rw [h]
  norm_num [Nat.min_def]

lemma calc_10000_1 : calculatePayoff 10000 0 1 = ⟨600, 0, 10000⟩ := by
  rw [calculatePayoff_rate_zero 10000 1 (by norm_num) (by norm_num), ceil_10000_1]
  have h : round2 ((10000 : ℤ) : ℚ) = ((10000 : ℤ) : ℚ) := round2_intCast 10000
  norm_num at h
  rw [h]
  norm_num [Nat.min_def]

lemma run_600_1_balance : (payoffRun 600 0 1).currentBalance = 0 := by
  have h := (payoffRun_rate_zero 600 1 (by norm_num) (by norm_num)).2
  rw [ceil_600_1] at h
  rw [h]
  norm_num

lemma run_600_half_balance : (payoffRun 600 0 (1 / 2)).currentBalance = 300 := by
  have h := (payoffRun_rate_zero 600 (1 / 2) (by norm_num) (by norm_num)).2
  rw [ceil_600_half] at h
  rw [h]
  norm_num

lemma run_10000_1_balance : (payoffRun 10000 0 1).currentBalance = 9400 := by
  have h := (payoffRun_rate_zero 10000 1 (by norm_num) (by norm_num)).2
  rw [ceil_10000_1] at h
  rw [h]
  norm_num

lemma run_600_1_months : (payoffRun 600 0 1).months = 600 := by
  have h := (payoffRun_rate_zero 600 1 (by norm_num) (by norm_num)).1
  rw [ceil_600_1] at h
  simpa using h

lemma run_600_half_months : (payoffRun 600 0 (1 / 2)).months = 600 := by
  have h := (payoffRun_rate_zero 600 (1 / 2) (by norm_num) (by norm_num)).1
  rw [ceil_600_half] at h
  simpa using h

lemma capped_600_1 : (simulate 600 0 1 600).capped = false := by
  rw [simulate_capped_eq, run_600_1_months, run_600_1_balance]
  exact decide_eq_false (by rintro ⟨-, h⟩; exact lt_irrefl 0 h)

lemma capped_600_half : (simulate 600 0 (1 / 2) 600).capped = true := by
  rw [simulate_capped_eq, run_600_half_months, run_600_half_balance]
  exact decide_eq_true ⟨rfl, by norm_num⟩

set_option maxHeartbeats 4000000 in
/-- Exact evaluation of the loop on the documented concrete scenario
`balance = 5000, apr = 18.99, monthly_payment = 150`.  The loop pays the
debt off after 48 months, accruing 2162.63 of interest (rounded to
cents), in agreement with the closed-form amortization formula, which
gives ≈ 47.75 months for these inputs. -/
lemma calc_5000_eval :
    calculatePayoff 5000 (1899 / 100) 150 = ⟨48, 216263 / 100, 716263 / 100⟩ := by
  norm_num [calculatePayoff, payoffRun, payoffLoop_step, payoffLoop_stop, payoffStep,
    round2, round_eq]

/-! ## Claim theorems -/

/-- C1: for every initial balance > 0, apr ≥ 0 and monthly payment > 0,
`calculatePayoff` computes exactly the recurrence specified for
AmortizationSimulator.simulate: each month `interest = balance *
(apr/100/12)` is added to the running total, the balance becomes
`balance + interest - monthly_payment` (clipped to 0 from below), the
loop stops at the first month with balance ≤ 0 or at the 600-month cap,
and months_to_payoff is the number of iterations executed. -/
theorem calculatePayoff_implements_spec_recurrence (b a p : ℚ)
    (hb : 0 < b) (ha : 0 ≤ a) (hp : 0 < p) :
    (calculatePayoff b a p).monthsToPayoff = (simulate b a p 600).monthsToPayoff ∧
    (calculatePayoff b a p).totalInterest = (simulate b a p 600).totalInterest ∧
    (calculatePayoff b a p).totalPaid = (simulate b a p 600).totalPaid := by
  rw [calculatePayoff_eq_simulate_parts b a p]
  exact ⟨rfl, rfl, rfl⟩

theorem calculatePayoff_implements_spec_recurrence_witness :
    ((0 : ℚ) < 5000 ∧ (0 : ℚ) ≤ 1899 / 100 ∧ (0 : ℚ) < 150) ∧
    ((calculatePayoff 5000 (1899 / 100) 150).monthsToPayoff
        = (simulate 5000 (1899 / 100) 150 600).monthsToPayoff ∧
      (calculatePayoff 5000 (1899 / 100) 150).totalInterest
        = (simulate 5000 (1899 / 100) 150 600).totalInterest ∧
      (calculatePayoff 5000 (1899 / 100) 150).totalPaid
        = (simulate 5000 (1899 / 100) 150 600).totalPaid) :=
  ⟨⟨by norm_num, by norm_num, by norm_num⟩,
    calculatePayoff_implements_spec_recurrence 5000 (1899 / 100) 150
      (by norm_num) (by norm_num) (by norm_num)⟩

/-- C2 (counterexample): the record `calculatePayoff` builds has no
`capped` field, and no function of that record can recover the
specified `capped` flag: the inputs `(600, 0, 1)` and `(600, 0, 1/2)`
produce the identical record `⟨600, 0, 600⟩`, yet the first pays the
balance off exactly at month 600 (capped = false) while the second
reaches the cap with 300 still owed (capped = true). -/
theorem capped_not_recoverable_from_result :
    ¬ ∃ f : PayoffResult → Bool,
        ∀ b a p : ℚ, f (calculatePayoff b a p) = (simulate b a p 600).capped := by
  rintro ⟨f, hf⟩
  have h1 := hf 600 0 1
  have h2 := hf 600 0 (1 / 2)
  rw [calc_600_1, capped_600_1] at h1
  rw [calc_600_half, capped_600_half] at h2
  rw [h1] at h2
  exact Bool.false_ne_true h2

/-- C2 (amended): `calculatePayoff` returns only `monthsToPayoff`,
`totalInterest` and `totalPaid`; these three fields agree with the
specified simulate contract, but the specified boolean `capped` field is
not part of the record the code produces. -/
theorem calculatePayoff_result_drops_capped (b a p : ℚ) :
    calculatePayoff b a p =
      { monthsToPayoff := (simulate b a p 600).monthsToPayoff
        totalInterest := (simulate b a p 600).totalInterest
        totalPaid := (simulate b a p 600).totalPaid } :=
  calculatePayoff_eq_simulate_parts b a p

/-- C3: starting from a non-negative balance, the balance observed at
every loop-iteration boundary is ≥ 0, and an overpayment in a month
(update value < 0) is clipped to exactly zero. -/
theorem balance_nonneg_invariant (r p : ℚ) (fuel : ℕ) (s : LoopState)
    (h : 0 ≤ s.currentBalance) :
    0 ≤ (payoffLoop r p fuel s).currentBalance ∧
    (s.currentBalance + s.currentBalance * r - p < 0 →
      (payoffStep r p s).currentBalance = 0) := by
  refine ⟨payoffLoop_balance_nonneg r p fuel s h, fun hneg => ?_⟩
  rw [payoffStep_currentBalance]
  exact max_eq_right hneg.le

theorem balance_nonneg_invariant_witness :
    ((0 : ℚ) ≤ (⟨1, 0, 0⟩ : LoopState).currentBalance) ∧
    (0 ≤ (payoffLoop 0 2 1 ⟨1, 0, 0⟩).currentBalance ∧
      ((⟨1, 0, 0⟩ : LoopState).currentBalance
          + (⟨1, 0, 0⟩ : LoopState).currentBalance * 0 - 2 < 0 →
        (payoffStep 0 2 ⟨1, 0, 0⟩).currentBalance = 0)) :=
  ⟨by norm_num, balance_nonneg_invariant 0 2 1 ⟨1, 0, 0⟩ (by norm_num)⟩

/-- C4: for fixed balance ≥ 0 and apr ≥ 0, months-to-payoff is
non-increasing in the payment; the interest saved by paying an extra
amount e ≥ 0 (baseline total interest minus scenario total interest) is
non-negative; and an extra payment of 0 reproduces the baseline
exactly. -/
theorem payment_monotonicity (b a p₁ p₂ e : ℚ) (hb : 0 ≤ b) (ha : 0 ≤ a)
    (hp : p₁ ≤ p₂) (he : 0 ≤ e) :
    (calculatePayoff b a p₂).monthsToPayoff
        ≤ (calculatePayoff b a p₁).monthsToPayoff ∧
    0 ≤ (calculatePayoff b a p₁).totalInterest
        - (calculatePayoff b a (p₁ + e)).totalInterest ∧
    calculatePayoff b a (p₁ + 0) = calculatePayoff b a p₁ := by
  have hr : 0 ≤ a / 100 / 12 := div_nonneg (div_nonneg ha (by norm_num)) (by norm_num)
  have hc₁ := payoffLoop_couple (a / 100 / 12) p₁ p₂ hr hp 600
    ⟨b, 0, 0⟩ ⟨b, 0, 0⟩ hb le_rfl le_rfl rfl
  have hc₂ := payoffLoop_couple (a / 100 / 12) p₁ (p₁ + e) hr
    (le_add_of_nonneg_right he) 600 ⟨b, 0, 0⟩ ⟨b, 0, 0⟩ hb le_rfl le_rfl rfl
  refine ⟨hc₁.1, ?_, by rw [add_zero]⟩
  have hround := round2_mono hc₂.2
  simp only [calculatePayoff, payoffRun]
  linarith

theorem payment_monotonicity_witness :
    ((0 : ℚ) ≤ 1 ∧ (0 : ℚ) ≤ 0 ∧ (1 : ℚ) ≤ 2 ∧ (0 : ℚ) ≤ 1) ∧
    ((calculatePayoff 1 0 2).monthsToPayoff
        ≤ (calculatePayoff 1 0 1).monthsToPayoff ∧
      0 ≤ (calculatePayoff 1 0 1).totalInterest
          - (calculatePayoff 1 0 (1 + 1)).totalInterest ∧
      calculatePayoff 1 0 (1 + 0) = calculatePayoff 1 0 1) :=
  ⟨⟨by norm_num, le_rfl, by norm_num, by norm_num⟩,
    payment_monotonicity 1 0 1 2 1 (by norm_num) le_rfl (by norm_num) (by norm_num)⟩

/-- C5: the loop terminates within the 600-iteration cap on every input:
any fuel of at least 600 yields the same final state as fuel 600, and
the reported month count never exceeds 600; hitting the cap is a normal
result of the total function, not an error. -/
theorem simulation_terminates_within_cap (b a p : ℚ) (fuel : ℕ) (h : 600 ≤ fuel) :
    payoffLoop (a / 100 / 12) p fuel ⟨b, 0, 0⟩ = payoffRun b a p ∧
    (calculatePayoff b a p).monthsToPayoff ≤ 600 := by
  constructor
  · exact payoffLoop_stable (a / 100 / 12) p fuel 600 ⟨b, 0, 0⟩
      (by simpa using h) (by norm_num)
  · have h1 := payoffLoop_months_le (a / 100 / 12) p 600 ⟨b, 0, 0⟩
    simp only [calculatePayoff, payoffRun]
    simpa using h1

theorem simulation_terminates_within_cap_witness :
    (600 ≤ 601) ∧
    (payoffLoop ((2 : ℚ) / 100 / 12) 1 601 ⟨10000, 0, 0⟩ = payoffRun 10000 2 1 ∧
      (calculatePayoff 10000 2 1).monthsToPayoff ≤ 600) :=
  ⟨by norm_num, simulation_terminates_within_cap 10000 2 1 601 (by norm_num)⟩

/-- C6: with apr = 0, balance > 0 and payment > 0, the simulation
involves no partial operation, reports zero total interest, and pays
off in exactly the ceiling of balance / payment months, capped at
600: linear amortization. -/
theorem apr_zero_linear_amortization (b p : ℚ) (hb : 0 < b) (hp : 0 < p) :
    calculatePayoff b 0 p =
      { monthsToPayoff := min (Int.toNat ⌈b / p⌉) 600
        totalInterest := 0
        totalPaid := round2 b } :=
  calculatePayoff_rate_zero b p hb hp

theorem apr_zero_linear_amortization_witness :
    ((0 : ℚ) < 100 ∧ (0 : ℚ) < 30) ∧
    calculatePayoff 100 0 30 =
      { monthsToPayoff := min (Int.toNat ⌈(100 : ℚ) / 30⌉) 600
        totalInterest := 0
        totalPaid := round2 100 } :=
  ⟨⟨by norm_num, by norm_num⟩,
    apr_zero_linear_amortization 100 30 (by norm_num) (by norm_num)⟩

/-- C7: monetary amounts are rounded to cents exactly once, when the
result record is built (round2 applied to the accumulated exact total
interest and to balance + total interest); inside the iteration the
balance and interest updates are the exact arithmetic recurrence, with
no rounding. -/
theorem rounding_only_at_reporting (b a p : ℚ) :
    calculatePayoff b a p =
      { monthsToPayoff := (payoffRun b a p).months
        totalInterest := round2 (payoffRun b a p).totalInterest
        totalPaid := round2 (b + (payoffRun b a p).totalInterest) } ∧
    ∀ s : LoopState,
      (payoffStep (a / 100 / 12) p s).totalInterest
          = s.totalInterest + s.currentBalance * (a / 100 / 12) ∧
      (payoffStep (a / 100 / 12) p s).currentBalance
          = max (s.currentBalance + s.currentBalance * (a / 100 / 12) - p) 0 :=
  ⟨rfl, fun s => ⟨rfl, payoffStep_currentBalance _ _ s⟩⟩

/-- C8 (counterexample): on `balance = 5000, apr = 18.99, payment = 150`
the code does not return months ≈ 45 with total interest in
[1864.00, 1864.99]; it returns 48 months and 2162.63 of interest. -/
theorem concrete_scenario_claim_false :
    ¬((calculatePayoff 5000 (1899 / 100) 150).monthsToPayoff = 45 ∧
      1864 ≤ (calculatePayoff 5000 (1899 / 100) 150).totalInterest ∧
      (calculatePayoff 5000 (1899 / 100) 150).totalInterest ≤ 186499 / 100) := by
  rw [calc_5000_eval]
  rintro ⟨h, -⟩
  exact absurd h (by norm_num)

/-- C8 (amended): on `balance = 5000, apr = 18.99, payment = 150` the
simulation returns months_to_payoff = 48, total_interest = 2162.63 and
total_paid = 7162.63, agreeing with the closed-form amortization
formula (≈ 47.75 months). -/
theorem concrete_scenario_actual :
    calculatePayoff 5000 (1899 / 100) 150 = ⟨48, 216263 / 100, 716263 / 100⟩ :=
  calc_5000_eval

/-- C9: the scenario computation is deterministic: the result record is
a function of the three inputs balance, apr and monthly payment alone,
so identical inputs give identical outputs. -/
theorem calculatePayoff_deterministic (b₁ a₁ p₁ b₂ a₂ p₂ : ℚ)
    (hb : b₁ = b₂) (ha : a₁ = a₂) (hp : p₁ = p₂) :
    calculatePayoff b₁ a₁ p₁ = calculatePayoff b₂ a₂ p₂ := by
  rw [hb, ha, hp]

theorem calculatePayoff_deterministic_witness :
    ((5000 : ℚ) = 5000 ∧ (1899 / 100 : ℚ) = 1899 / 100 ∧ (150 : ℚ) = 150) ∧
    calculatePayoff 5000 (1899 / 100) 150 = calculatePayoff 5000 (1899 / 100) 150 :=
  ⟨⟨rfl, rfl, rfl⟩,
    calculatePayoff_deterministic 5000 (1899 / 100) 150 5000 (1899 / 100) 150
      rfl rfl rfl⟩

/-- C10: the reported total_paid is the initial balance plus the
accumulated interest, rounded to cents at reporting, not months times
payment (on `(100, 0, 30)` it is 100, not 4 * 30 = 120); when the cap is
reached with a positive remaining balance (`(10000, 0, 1)` ends month
600 still owing 9400), total_paid still reports balance + interest. -/
theorem totalPaid_is_balance_plus_interest :
    (∀ b a p : ℚ,
        (calculatePayoff b a p).totalPaid
          = round2 (b + (payoffRun b a p).totalInterest)) ∧
    (calculatePayoff 100 0 30).totalPaid
        ≠ ((calculatePayoff 100 0 30).monthsToPayoff : ℚ) * 30 ∧
    ((calculatePayoff 10000 0 1).monthsToPayoff = 600 ∧
      0 < (payoffRun 10000 0 1).currentBalance ∧
      (calculatePayoff 10000 0 1).totalPaid = 10000) := by
  refine ⟨fun b a p => rfl, ?_, ?_, ?_, ?_⟩
  · rw [calc_100_30]
    norm_num
  · rw [calc_10000_1]
  · rw [run_10000_1_balance]
    norm_num
  · rw [calc_10000_1]

end SpendSense
